import Mathlib

/-!
Verification of the payment webhook reconciliation flow of the e-shop
marketplace application.

The development shallowly embeds:
* the `Payment` rows of the Prisma schema (the fields the reconciliation
  flow touches: `isPaid`, `paidAt`, `paymentResult`),
* the Stripe webhook route handler `POST` from the `app` route file, and
* the store primitive `updatePaymentToPaid`, which is imported by the
  handler from `@/lib/actions/payment.actions` and is not among the
  provided sources; it is modelled from the specification.

Machine arithmetic: Stripe charge amounts are integers of minor currency
units; the handler converts them with the JavaScript expression
`(charge.amount / 100).toFixed()`, embedded below as `toFixedZero`.
-/

namespace EShop

/-- Payload written into `Payment.paymentResult` by the webhook handler.
Field names follow the object literal built in the route handler.
`email_address` is an `Option` because the source reads
`charge.billing_details.email!`, a non-null assertion that passes a null
through unchanged at runtime. -/
structure PaymentResult where
  id : String
  status : String
  email_address : Option String
  pricePaid : String
  amount : String
  created_at : String
deriving DecidableEq

/-- The fields of the Prisma `Payment` model that the reconciliation flow
reads or writes. Schema defaults: `isPaid` false, `paidAt` null. -/
structure Payment where
  id : String
  isPaid : Bool
  paidAt : Option String
  paymentResult : Option PaymentResult
deriving DecidableEq

/-- Billing details of a Stripe charge (only the field the handler uses). -/
structure BillingDetails where
  email : Option String
deriving DecidableEq

/-- Charge metadata: the correlation keys the handler consults. Keys of a
Stripe metadata object may be absent, hence `Option`. -/
structure ChargeMetadata where
  orderId : Option String
  paymentId : Option String
deriving DecidableEq

/-- A Stripe charge as consumed by the handler: provider charge id, amount
in minor currency units, optional metadata (the source uses the optional
chain `charge.metadata?.`), billing details. -/
structure Charge where
  id : String
  amount : Nat
  metadata : Option ChargeMetadata
  billing_details : BillingDetails
deriving DecidableEq

/-- A verified Stripe event: its `type` string and `data.object` charge. -/
structure StripeEvent where
  type : String
  charge : Charge
deriving DecidableEq

/-- An inbound webhook request: raw body text and the optional
`stripe-signature` header. -/
structure WebhookRequest where
  body : String
  signature : Option String
deriving DecidableEq

/-- An HTTP response as produced by `NextResponse.json`: status code plus
the `message` and `error` fields of the JSON body when present. -/
structure HttpResponse where
  status : Nat
  message : Option String
  error : Option String
deriving DecidableEq

/-- Embedding of the JavaScript expression `(amount / 100).toFixed()` for a
nonnegative integer `amount`: IEEE double division by 100 followed by
`toFixed` with the default digit count of zero, which renders the value
rounded to the nearest integer, ties toward the larger integer, with no
decimal places. For integer minor-unit amounts this equals integer
division of `amount + 50` by `100` rendered as a decimal numeral: the
quotient `amount / 100` rounds to the double nearest the exact rational,
whose nearest integer coincides with that of the rational (the only exact
ties, `amount ≡ 50 [MOD 100]`, are exactly representable and round up). -/
def toFixedZero (amount : Nat) : String :=
  toString ((amount + 50) / 100)

/-- The truthiness test `charge.metadata?.orderId` used by the handler's
guard: false when `metadata` is absent, when `orderId` is absent, or when
`orderId` is the empty string (a falsy value in JavaScript). -/
def orderIdTruthy (c : Charge) : Bool :=
  match c.metadata with
  | none => false
  | some m =>
    match m.orderId with
    | none => false
    | some s => !(s == "")

/-- The identifier the handler passes to the store update:
`charge.metadata.paymentId` (absent metadata or key gives `undefined`). -/
def chargePaymentId (c : Charge) : Option String :=
  match c.metadata with
  | none => none
  | some m => m.paymentId

/-- The `paymentResult` payload the handler builds from the charge; `now`
stands for `new Date().toISOString()`. -/
def chargePayload (c : Charge) (now : String) : PaymentResult :=
  { id := c.id
    status := "COMPLETED"
    email_address := c.billing_details.email
    pricePaid := toFixedZero c.amount
    amount := toFixedZero c.amount
    created_at := now }

/-- Look a `Payment` row up by primary key. -/
def findPayment (store : List Payment) (pid : String) : Option Payment :=
  store.find? (fun p => p.id == pid)

/-- Errors raised by the store primitive. -/
inductive StoreError where
  | unknownPayment
deriving DecidableEq

/-- Message carried by a thrown store error. -/
def storeErrorMessage : StoreError → String
  | .unknownPayment => "Payment not found"

/-- Mark one `Payment` row paid with the given payload and timestamp. -/
def markPaid (payload : PaymentResult) (now : String) (p : Payment) : Payment :=
  { p with isPaid := true, paidAt := some now, paymentResult := some payload }

/-- Row-level effect of the conditional write: rows whose id matches the
correlation id are marked paid, all others are untouched. -/
def updateRow (pid : String) (payload : PaymentResult) (now : String)
    (q : Payment) : Payment :=
  if q.id == pid then markPaid payload now q else q

/-- Modelled from the spec: `updatePaymentToPaid`, imported by the route
handler from `@/lib/actions/payment.actions` and not among the provided
sources. Per the spec it resolves the Payment row by the given correlation
id, failing with an UnknownPayment error when the id is undefined or does
not resolve; returns success without mutation when the Payment is already
PAID (idempotent no-op); and otherwise sets `isPaid`, `paidAt` and
`paymentResult` in a single conditional atomic write guarded on
`isPaid = false`. One call to this function is one atomic store step. -/
def updatePaymentToPaid (store : List Payment) (pid : Option String)
    (payload : PaymentResult) (now : String) : Except StoreError (List Payment) :=
  match pid with
  | none => .error .unknownPayment
  | some pid =>
    match findPayment store pid with
    | none => .error .unknownPayment
    | some p =>
      if p.isPaid then
        .ok store
      else
        .ok (store.map (updateRow pid payload now))

/-- Response for a missing `stripe-signature` header. -/
def noSignatureResponse : HttpResponse :=
  { status := 400, message := none, error := some "No signature header" }

/-- Response for a `charge.succeeded` event without `metadata.orderId`. -/
def noOrderIdResponse : HttpResponse :=
  { status := 400, message := none, error := some "No orderId found in payment metadata" }

/-- Response after a successful store update. -/
def successResponse : HttpResponse :=
  { status := 200, message := some "updateOrderToPaid was successful", error := none }

/-- Response acknowledging an event of any other type. -/
def ignoredResponse : HttpResponse :=
  { status := 200, message := some "event is not charge.succeeded", error := none }

/-- Response produced by the handler's catch-all block for any error thrown
inside the try: status 500, the fixed error text of the source, and the
thrown error's message. -/
def catchResponse (m : String) : HttpResponse :=
  { status := 500, message := some m, error := some "Failed to create conversation" }

/-- Embedding of the webhook route handler `POST`. `verify` stands for
`stripe.webhooks.constructEvent` applied to the raw body and signature
header with the configured secret: `Except.error m` models the SDK
throwing a verification error with message `m`, which the source's
catch-all converts to the 500 response. The handler returns the HTTP
response together with the resulting store state. -/
def POST (verify : String → String → Except String StripeEvent)
    (now : String) (req : WebhookRequest) (store : List Payment) :
    HttpResponse × List Payment :=
  match req.signature with
  | none => (noSignatureResponse, store)
  | some sig =>
    match verify req.body sig with
    | .error m => (catchResponse m, store)
    | .ok event =>
      if event.type == "charge.succeeded" then
        if orderIdTruthy event.charge then
          match updatePaymentToPaid store (chargePaymentId event.charge)
              (chargePayload event.charge now) now with
          | .error e => (catchResponse (storeErrorMessage e), store)
          | .ok store2 => (successResponse, store2)
        else
          (noOrderIdResponse, store)
      else
        (ignoredResponse, store)

/-- Whether an `updatePaymentToPaid` call on this store would actually apply
the PENDING to PAID transition (and hence fire its side effects): true
exactly when the correlation id resolves to a row that is not yet paid. -/
def firesTransition (store : List Payment) (pid : Option String) : Bool :=
  match pid with
  | none => false
  | some pid =>
    match findPayment store pid with
    | none => false
    | some p => !p.isPaid

/-- The store state after one atomic `updatePaymentToPaid` step; a thrown
store error leaves the store unchanged. -/
def runUpdate (store : List Payment) (pid : Option String)
    (payload : PaymentResult) (now : String) : List Payment :=
  match updatePaymentToPaid store pid payload now with
  | .ok s => s
  | .error _ => store

/-! ### Concrete sample values used by witnesses and counterexamples -/

/-- A PENDING payment row with correlation id "p1". -/
def samplePending : Payment :=
  { id := "p1", isPaid := false, paidAt := none, paymentResult := none }

/-- A PAID payment row with correlation id "p1". -/
def samplePaid : Payment :=
  { id := "p1", isPaid := true, paidAt := some "t0", paymentResult := none }

/-- A PENDING payment row with a different correlation id. -/
def sampleOther : Payment :=
  { id := "p2", isPaid := false, paidAt := none, paymentResult := none }

/-- A charge of 12345 minor units correlated to payment "p1". -/
def sampleCharge : Charge :=
  { id := "ch_1", amount := 12345
    metadata := some { orderId := some "o1", paymentId := some "p1" }
    billing_details := { email := some "buyer@example.com" } }

/-- A charge whose metadata lacks `orderId`. -/
def sampleChargeNoOrder : Charge :=
  { id := "ch_2", amount := 500
    metadata := some { orderId := none, paymentId := some "p1" }
    billing_details := { email := none } }

/-- A charge whose metadata carries `orderId` but no `paymentId`. -/
def sampleChargeNoPid : Charge :=
  { id := "ch_3", amount := 700
    metadata := some { orderId := some "o1", paymentId := none }
    billing_details := { email := none } }

/-- A charge.succeeded event for `sampleCharge`. -/
def sampleEvent : StripeEvent :=
  { type := "charge.succeeded", charge := sampleCharge }

/-- A charge.succeeded event without correlation metadata. -/
def sampleEventNoOrder : StripeEvent :=
  { type := "charge.succeeded", charge := sampleChargeNoOrder }

/-- A charge.succeeded event with `orderId` but no `paymentId`. -/
def sampleEventNoPid : StripeEvent :=
  { type := "charge.succeeded", charge := sampleChargeNoPid }

/-- An event of a type the handler does not act on. -/
def sampleEventOther : StripeEvent :=
  { type := "payment_intent.created", charge := sampleCharge }

/-- A webhook request with a signature header. -/
def sampleRequest : WebhookRequest :=
  { body := "raw-body", signature := some "sig-header" }

/-- A webhook request without a signature header. -/
def sampleRequestNoSig : WebhookRequest :=
  { body := "raw-body", signature := none }

/-- A verifier under which every request verifies to `sampleEvent`. -/
def sampleVerify : String → String → Except String StripeEvent :=
  fun _ _ => .ok sampleEvent

/-- A verifier under which every request verifies to `sampleEventNoOrder`. -/
def sampleVerifyNoOrder : String → String → Except String StripeEvent :=
  fun _ _ => .ok sampleEventNoOrder

/-- A verifier under which every request verifies to `sampleEventNoPid`. -/
def sampleVerifyNoPid : String → String → Except String StripeEvent :=
  fun _ _ => .ok sampleEventNoPid

/-- A verifier under which every request verifies to `sampleEventOther`. -/
def sampleVerifyOther : String → String → Except String StripeEvent :=
  fun _ _ => .ok sampleEventOther

/-- A verifier that rejects every request, modelling
`stripe.webhooks.constructEvent` throwing a signature verification error. -/
def sampleVerifyFail : String → String → Except String StripeEvent :=
  fun _ _ => .error "Unable to extract timestamp and signatures from header"

/-! ### Helper lemmas -/

theorem markPaid_id (payload : PaymentResult) (now : String) (p : Payment) :
    (markPaid payload now p).id = p.id := rfl

theorem updateRow_id (pid : String) (payload : PaymentResult) (now : String)
    (q : Payment) : (updateRow pid payload now q).id = q.id := by
  unfold updateRow
  split <;> rfl

theorem findPayment_map_update (store : List Payment) (pid : String)
    (payload : PaymentResult) (now : String) (p : Payment)
    (h : findPayment store pid = some p) :
    findPayment (store.map (updateRow pid payload now)) pid
      = some (markPaid payload now p) := by
  have h' : List.find? (fun q : Payment => q.id == pid) store = some p := h
  have hid := List.find?_some h'
  have hpred : ((fun q : Payment => q.id == pid) ∘ updateRow pid payload now)
      = fun q : Payment => q.id == pid := by
    funext q
    simp [Function.comp, updateRow_id]
  unfold findPayment at h ⊢
  rw [List.find?_map, hpred, h]
  simp [Option.map, updateRow, hid]

theorem update_of_pending (store : List Payment) (pid : String)
    (payload : PaymentResult) (now : String) (p : Payment)
    (h : findPayment store pid = some p) (hpend : p.isPaid = false) :
    updatePaymentToPaid store (some pid) payload now =
      .ok (store.map (updateRow pid payload now)) := by
  simp [updatePaymentToPaid, h, hpend]

theorem update_of_paid (store : List Payment) (pid : String)
    (payload : PaymentResult) (now : String) (p : Payment)
    (h : findPayment store pid = some p) (hpaid : p.isPaid = true) :
    updatePaymentToPaid store (some pid) payload now = .ok store := by
  simp [updatePaymentToPaid, h, hpaid]

theorem POST_verified (verify : String → String → Except String StripeEvent)
    (now : String) (req : WebhookRequest) (store : List Payment)
    (sig : String) (ev : StripeEvent)
    (hsig : req.signature = some sig) (hver : verify req.body sig = .ok ev)
    (hty : ev.type = "charge.succeeded") :
    POST verify now req store =
      if orderIdTruthy ev.charge then
        match updatePaymentToPaid store (chargePaymentId ev.charge)
            (chargePayload ev.charge now) now with
        | .error e => (catchResponse (storeErrorMessage e), store)
        | .ok store2 => (successResponse, store2)
      else
        (noOrderIdResponse, store) := by
  simp [POST, hsig, hver, hty]

/-! ### Claim theorems -/

/-- C7: for every verified event of type charge.succeeded whose payload
lacks the correlation metadata (the `metadata?.orderId` guard fails), the
endpoint returns the 400 missing-orderId error response and the store is
not mutated. -/
theorem c7_missing_correlation_400 (verify : String → String → Except String StripeEvent)
    (now : String) (req : WebhookRequest) (store : List Payment)
    (sig : String) (ev : StripeEvent)
    (hsig : req.signature = some sig) (hver : verify req.body sig = .ok ev)
    (hty : ev.type = "charge.succeeded")
    (hord : orderIdTruthy ev.charge = false) :
    POST verify now req store = (noOrderIdResponse, store) ∧
    noOrderIdResponse.status = 400 := by
  refine ⟨?_, rfl⟩
  rw [POST_verified verify now req store sig ev hsig hver hty]
  simp [hord]

/-- Witness for C7 at a concrete charge.succeeded event whose metadata has
no orderId. -/
theorem c7_missing_correlation_400_witness :
    POST sampleVerifyNoOrder "t1" sampleRequest [samplePending]
      = (noOrderIdResponse, [samplePending]) ∧
    noOrderIdResponse.status = 400 :=
  c7_missing_correlation_400 sampleVerifyNoOrder "t1" sampleRequest
    [samplePending] "sig-header" sampleEventNoOrder rfl rfl rfl rfl

/-- C8: every verified event whose type is not charge.succeeded is
acknowledged with the 200 "event is not charge.succeeded" response and no
store mutation; it is never treated as an error. -/
theorem c8_other_event_acknowledged (verify : String → String → Except String StripeEvent)
    (now : String) (req : WebhookRequest) (store : List Payment)
    (sig : String) (ev : StripeEvent)
    (hsig : req.signature = some sig) (hver : verify req.body sig = .ok ev)
    (hty : ev.type ≠ "charge.succeeded") :
    POST verify now req store = (ignoredResponse, store) ∧
    ignoredResponse.status = 200 ∧
    ignoredResponse.message = some "event is not charge.succeeded" ∧
    ignoredResponse.error = none := by
  refine ⟨?_, rfl, rfl, rfl⟩
  simp [POST, hsig, hver, hty]

/-- Witness for C8 at a concrete event of type payment_intent.created. -/
theorem c8_other_event_acknowledged_witness :
    POST sampleVerifyOther "t1" sampleRequest [samplePending]
      = (ignoredResponse, [samplePending]) ∧
    ignoredResponse.status = 200 :=
  have h := c8_other_event_acknowledged sampleVerifyOther "t1" sampleRequest
    [samplePending] "sig-header" sampleEventOther rfl rfl (by decide)
  ⟨h.1, h.2.1⟩

/-- C5 counterexample: a request whose signature header is present but
fails verification is answered with status 500 (the SDK's thrown
verification error reaches the handler's catch-all block), not the
400-equivalent response the claim requires. -/
theorem c5_counterexample_verification_failure_is_500 :
    (POST sampleVerifyFail "t1" sampleRequest [samplePending]).1.status = 500 ∧
    (POST sampleVerifyFail "t1" sampleRequest [samplePending]).1.status ≠ 400 := by
  constructor
  · rfl
  · decide

/-- C5 (amended): a request with a missing signature header is answered
with the 400 no-signature response; a request whose signature fails
verification is answered with the 500 catch-all response carrying the
verification error's message. In both cases the body is never parsed as a
structured event and the store is not mutated. -/
theorem c5_signature_failures (verify : String → String → Except String StripeEvent)
    (now : String) (req : WebhookRequest) (store : List Payment) :
    (req.signature = none →
      POST verify now req store = (noSignatureResponse, store) ∧
      noSignatureResponse.status = 400) ∧
    (∀ sig m, req.signature = some sig → verify req.body sig = .error m →
      POST verify now req store = (catchResponse m, store) ∧
      (catchResponse m).status = 500) := by
  constructor
  · intro h
    exact ⟨by simp [POST, h], rfl⟩
  · intro sig m hsig hver
    exact ⟨by simp [POST, hsig, hver], rfl⟩

/-- Witness for C5 at a concrete signature-less request and at a concrete
request rejected by the verifier. -/
theorem c5_signature_failures_witness :
    POST sampleVerifyFail "t1" sampleRequestNoSig [samplePending]
      = (noSignatureResponse, [samplePending]) ∧
    POST sampleVerifyFail "t1" sampleRequest [samplePending]
      = (catchResponse "Unable to extract timestamp and signatures from header",
         [samplePending]) := by
  constructor
  · exact ((c5_signature_failures sampleVerifyFail "t1" sampleRequestNoSig
      [samplePending]).1 rfl).1
  · exact ((c5_signature_failures sampleVerifyFail "t1" sampleRequest
      [samplePending]).2 "sig-header"
      "Unable to extract timestamp and signatures from header" rfl rfl).1

/-- C4: for every verified charge.succeeded event, the 400
missing-correlation response is returned exactly when `metadata.orderId`
is falsy; when it is truthy the handler's outcome is that of one
`updatePaymentToPaid` call whose identifier argument is
`metadata.paymentId`; in particular an event carrying `orderId` but no
`paymentId` passes the guard and reaches the update call with an
undefined identifier (surfacing as the 500 unknown-payment catch response
under the modelled store, with no mutation). -/
theorem c4_orderId_guard_paymentId_update (verify : String → String → Except String StripeEvent)
    (now : String) (req : WebhookRequest) (store : List Payment)
    (sig : String) (ev : StripeEvent)
    (hsig : req.signature = some sig) (hver : verify req.body sig = .ok ev)
    (hty : ev.type = "charge.succeeded") :
    ((POST verify now req store).1 = noOrderIdResponse ↔
      orderIdTruthy ev.charge = false) ∧
    (orderIdTruthy ev.charge = true →
      POST verify now req store =
        match updatePaymentToPaid store (chargePaymentId ev.charge)
            (chargePayload ev.charge now) now with
        | .error e => (catchResponse (storeErrorMessage e), store)
        | .ok store2 => (successResponse, store2)) ∧
    (orderIdTruthy ev.charge = true → chargePaymentId ev.charge = none →
      (POST verify now req store).1
        = catchResponse (storeErrorMessage StoreError.unknownPayment) ∧
      (POST verify now req store).2 = store) := by
  rw [POST_verified verify now req store sig ev hsig hver hty]
  refine ⟨?_, ?_, ?_⟩
  · cases hord : orderIdTruthy ev.charge with
    | false => simp [hord]
    | true =>
      simp only [hord, if_true]
      constructor
      · intro hresp
        exfalso
        cases hupd : updatePaymentToPaid store (chargePaymentId ev.charge)
            (chargePayload ev.charge now) now with
        | error e =>
          rw [hupd] at hresp
          simp [catchResponse, noOrderIdResponse] at hresp
        | ok s2 =>
          rw [hupd] at hresp
          simp [successResponse, noOrderIdResponse] at hresp
      · intro hfalse
        cases hfalse
  · intro hord
    simp [hord]
  · intro hord hpid
    simp [hord, hpid, updatePaymentToPaid, catchResponse, storeErrorMessage]

/-- Witness for C4 at a concrete event whose metadata carries orderId but
no paymentId: the guard passes and the update call with the undefined
identifier surfaces as the 500 unknown-payment catch response. -/
theorem c4_orderId_guard_paymentId_update_witness :
    (POST sampleVerifyNoPid "t1" sampleRequest [samplePending]).1
      = catchResponse (storeErrorMessage StoreError.unknownPayment) ∧
    (POST sampleVerifyNoPid "t1" sampleRequest [samplePending]).2
      = [samplePending] :=
  (c4_orderId_guard_paymentId_update sampleVerifyNoPid "t1" sampleRequest
    [samplePending] "sig-header" sampleEventNoPid rfl rfl rfl).2.2 rfl rfl

/-- C2: for every verified charge.succeeded event whose correlation
metadata passes the guard and whose paymentId resolves to a PENDING
payment, the handler returns the 200 success response with a message body
and the payment row afterwards has isPaid true, paidAt set to the call's
timestamp, and paymentResult populated with the provider charge id, the
COMPLETED status, the payer email and the derived major-unit amount. -/
theorem c2_pending_payment_marked_paid (verify : String → String → Except String StripeEvent)
    (now : String) (req : WebhookRequest) (store : List Payment)
    (sig : String) (ev : StripeEvent) (pid : String) (p : Payment)
    (hsig : req.signature = some sig) (hver : verify req.body sig = .ok ev)
    (hty : ev.type = "charge.succeeded")
    (hord : orderIdTruthy ev.charge = true)
    (hpid : chargePaymentId ev.charge = some pid)
    (hfind : findPayment store pid = some p)
    (hpend : p.isPaid = false) :
    (POST verify now req store).1 = successResponse ∧
    successResponse.status = 200 ∧
    successResponse.message = some "updateOrderToPaid was successful" ∧
    (∃ q, findPayment (POST verify now req store).2 pid = some q ∧
      q.isPaid = true ∧ q.paidAt = some now ∧
      q.paymentResult = some (chargePayload ev.charge now) ∧
      (chargePayload ev.charge now).id = ev.charge.id ∧
      (chargePayload ev.charge now).status = "COMPLETED" ∧
      (chargePayload ev.charge now).email_address
        = ev.charge.billing_details.email ∧
      (chargePayload ev.charge now).pricePaid = toFixedZero ev.charge.amount ∧
      (chargePayload ev.charge now).amount = toFixedZero ev.charge.amount) := by
  have hrun : POST verify now req store
      = (successResponse, store.map (updateRow pid (chargePayload ev.charge now) now)) := by
    rw [POST_verified verify now req store sig ev hsig hver hty]
    simp only [hord, if_true, hpid]
    rw [update_of_pending store pid (chargePayload ev.charge now) now p hfind hpend]
  refine ⟨by rw [hrun], rfl, rfl, ?_⟩
  refine ⟨markPaid (chargePayload ev.charge now) now p, ?_, rfl, rfl, rfl, rfl, rfl, rfl, rfl, rfl⟩
  rw [hrun]
  exact findPayment_map_update store pid (chargePayload ev.charge now) now p hfind

/-- Witness for C2 at a concrete verified event of 12345 minor units
resolving to the concrete PENDING payment "p1". -/
theorem c2_pending_payment_marked_paid_witness :
    (POST sampleVerify "t1" sampleRequest [samplePending]).1 = successResponse ∧
    successResponse.status = 200 := by
  have h := c2_pending_payment_marked_paid sampleVerify "t1" sampleRequest
    [samplePending] "sig-header" sampleEvent "p1" samplePending
    rfl rfl rfl rfl rfl rfl rfl
  exact ⟨h.1, h.2.1⟩

/-- C3: processing is idempotent per payment: after a first delivery of a
charge.succeeded event transitions the resolved PENDING payment to PAID,
redelivering the identical event (at any later timestamp) returns the 200
success response and leaves the store exactly as the first call left it,
so paidAt is unchanged and the conditional write fires no second time. -/
theorem c3_redelivery_is_noop (verify : String → String → Except String StripeEvent)
    (now1 now2 : String) (req : WebhookRequest) (store : List Payment)
    (sig : String) (ev : StripeEvent) (pid : String) (p : Payment)
    (hsig : req.signature = some sig) (hver : verify req.body sig = .ok ev)
    (hty : ev.type = "charge.succeeded")
    (hord : orderIdTruthy ev.charge = true)
    (hpid : chargePaymentId ev.charge = some pid)
    (hfind : findPayment store pid = some p)
    (hpend : p.isPaid = false) :
    (POST verify now2 req (POST verify now1 req store).2).1 = successResponse ∧
    (POST verify now2 req (POST verify now1 req store).2).2
      = (POST verify now1 req store).2 := by
  have hrun1 : (POST verify now1 req store).2
      = store.map (updateRow pid (chargePayload ev.charge now1) now1) := by
    rw [POST_verified verify now1 req store sig ev hsig hver hty]
    simp only [hord, if_true, hpid]
    rw [update_of_pending store pid (chargePayload ev.charge now1) now1 p hfind hpend]
  have hfind1 : findPayment (POST verify now1 req store).2 pid
      = some (markPaid (chargePayload ev.charge now1) now1 p) := by
    rw [hrun1]
    exact findPayment_map_update store pid (chargePayload ev.charge now1) now1 p hfind
  have hrun2 : POST verify now2 req (POST verify now1 req store).2
      = (successResponse, (POST verify now1 req store).2) := by
    rw [POST_verified verify now2 req (POST verify now1 req store).2 sig ev hsig hver hty]
    simp only [hord, if_true, hpid]
    rw [update_of_paid (POST verify now1 req store).2 pid
      (chargePayload ev.charge now2) now2
      (markPaid (chargePayload ev.charge now1) now1 p) hfind1 rfl]
  exact ⟨by rw [hrun2], by rw [hrun2]⟩

/-- Witness for C3: redelivering the concrete sample event after it has
marked payment "p1" paid returns 200 and leaves the store unchanged. -/
theorem c3_redelivery_is_noop_witness :
    (POST sampleVerify "t2" sampleRequest
        (POST sampleVerify "t1" sampleRequest [samplePending]).2).1
      = successResponse ∧
    (POST sampleVerify "t2" sampleRequest
        (POST sampleVerify "t1" sampleRequest [samplePending]).2).2
      = (POST sampleVerify "t1" sampleRequest [samplePending]).2 :=
  c3_redelivery_is_noop sampleVerify "t1" "t2" sampleRequest [samplePending]
    "sig-header" sampleEvent "p1" samplePending rfl rfl rfl rfl rfl rfl rfl

/-- C6 counterexample: a verified charge.succeeded event whose metadata
names a paymentId that resolves to no payment row is answered with status
500 (the unknown-payment error thrown by the store reaches the catch-all
block), not a 400- or 404-equivalent response as the claim requires. -/
theorem c6_counterexample_unknown_payment_is_500 :
    (POST sampleVerify "t1" sampleRequest []).1.status = 500 ∧
    (POST sampleVerify "t1" sampleRequest []).1.status ≠ 400 ∧
    (POST sampleVerify "t1" sampleRequest []).1.status ≠ 404 := by
  refine ⟨rfl, by decide, by decide⟩

/-- C6 (amended): for every verified charge.succeeded event whose
correlation metadata passes the guard but whose paymentId resolves to no
existing payment, the endpoint surfaces the unknown-payment error as the
500 catch-all error response (not silently swallowed) and the store is
not mutated. -/
theorem c6_unknown_payment_error (verify : String → String → Except String StripeEvent)
    (now : String) (req : WebhookRequest) (store : List Payment)
    (sig : String) (ev : StripeEvent) (pid : String)
    (hsig : req.signature = some sig) (hver : verify req.body sig = .ok ev)
    (hty : ev.type = "charge.succeeded")
    (hord : orderIdTruthy ev.charge = true)
    (hpid : chargePaymentId ev.charge = some pid)
    (hfind : findPayment store pid = none) :
    (POST verify now req store).1
      = catchResponse (storeErrorMessage StoreError.unknownPayment) ∧
    (POST verify now req store).1.status = 500 ∧
    (POST verify now req store).1.error.isSome = true ∧
    (POST verify now req store).2 = store := by
  have hrun : POST verify now req store
      = (catchResponse (storeErrorMessage StoreError.unknownPayment), store) := by
    rw [POST_verified verify now req store sig ev hsig hver hty]
    simp only [hord, if_true, hpid]
    simp [updatePaymentToPaid, hfind]
  exact ⟨by rw [hrun], by rw [hrun]; rfl, by rw [hrun]; rfl, by rw [hrun]⟩

/-- Witness for C6 at the concrete sample event against a store holding
only an unrelated payment row. -/
theorem c6_unknown_payment_error_witness :
    (POST sampleVerify "t1" sampleRequest [sampleOther]).1
      = catchResponse (storeErrorMessage StoreError.unknownPayment) ∧
    (POST sampleVerify "t1" sampleRequest [sampleOther]).2 = [sampleOther] := by
  have h := c6_unknown_payment_error sampleVerify "t1" sampleRequest
    [sampleOther] "sig-header" sampleEvent "p1" rfl rfl rfl rfl rfl (by decide)
  exact ⟨h.1, h.2.2.2⟩

theorem update_ok_cases (store : List Payment) (pidOpt : Option String)
    (payload : PaymentResult) (now : String) (s2 : List Payment)
    (h : updatePaymentToPaid store pidOpt payload now = .ok s2) :
    s2 = store ∨
    ∃ pid p, pidOpt = some pid ∧ findPayment store pid = some p ∧
      p.isPaid = false ∧ s2 = store.map (updateRow pid payload now) := by
  cases pidOpt with
  | none => simp [updatePaymentToPaid] at h
  | some pid =>
    cases hf : findPayment store pid with
    | none => simp [updatePaymentToPaid, hf] at h
    | some p =>
      cases hp : p.isPaid with
      | true =>
        simp [updatePaymentToPaid, hf, hp] at h
        exact Or.inl h.symm
      | false =>
        simp [updatePaymentToPaid, hf, hp] at h
        exact Or.inr ⟨pid, p, rfl, hf, hp, h.symm⟩

theorem POST_store_cases (verify : String → String → Except String StripeEvent)
    (now : String) (req : WebhookRequest) (store : List Payment) :
    (POST verify now req store).2 = store ∨
    ∃ pid payload p, findPayment store pid = some p ∧ p.isPaid = false ∧
      (POST verify now req store).2 = store.map (updateRow pid payload now) := by
  cases hsig : req.signature with
  | none => exact Or.inl (by simp [POST, hsig])
  | some sig =>
    cases hver : verify req.body sig with
    | error m => exact Or.inl (by simp [POST, hsig, hver])
    | ok ev =>
      by_cases hty : ev.type = "charge.succeeded"
      · by_cases hord : orderIdTruthy ev.charge = true
        · cases hupd : updatePaymentToPaid store (chargePaymentId ev.charge)
              (chargePayload ev.charge now) now with
          | error e => exact Or.inl (by simp [POST, hsig, hver, hty, hord, hupd])
          | ok s2 =>
            have hpost : (POST verify now req store).2 = s2 := by
              simp [POST, hsig, hver, hty, hord, hupd]
            rcases update_ok_cases store (chargePaymentId ev.charge)
                (chargePayload ev.charge now) now s2 hupd with h | ⟨pid, p, -, hf, hp, hs⟩
            · exact Or.inl (by rw [hpost, h])
            · exact Or.inr ⟨pid, chargePayload ev.charge now, p, hf, hp,
                by rw [hpost, hs]⟩
        · rw [Bool.not_eq_true] at hord
          exact Or.inl (by simp [POST, hsig, hver, hty, hord])
      · exact Or.inl (by simp [POST, hsig, hver, hty])

theorem eq_of_mem_of_id_eq (store : List Payment)
    (hnodup : (store.map Payment.id).Nodup) (p q : Payment)
    (hp : p ∈ store) (hq : q ∈ store) (hid : p.id = q.id) : p = q :=
  List.inj_on_of_nodup_map hnodup hp hq hid

/-- C9: every operation of the reconciliation flow preserves the payment
state invariant: in the store the handler returns, paidAt is set exactly
on the rows whose isPaid is true; and every row that was already PAID
before the call is still present unchanged afterwards (so isPaid never
transitions back and a row transitions to PAID at most once, with paidAt
untouched by later deliveries). -/
theorem c9_state_invariant (verify : String → String → Except String StripeEvent)
    (now : String) (req : WebhookRequest) (store : List Payment)
    (hnodup : (store.map Payment.id).Nodup)
    (hinv : ∀ p ∈ store, p.paidAt.isSome = p.isPaid) :
    (∀ p ∈ (POST verify now req store).2, p.paidAt.isSome = p.isPaid) ∧
    (∀ p ∈ store, p.isPaid = true → p ∈ (POST verify now req store).2) := by
  rcases POST_store_cases verify now req store with hsame | ⟨pid, payload, w, hfw, hwpend, hmap⟩
  · rw [hsame]
    exact ⟨hinv, fun p hp _ => hp⟩
  · rw [hmap]
    constructor
    · intro p hp
      rcases List.mem_map.mp hp with ⟨q, hq, hqe⟩
      subst hqe
      unfold updateRow
      by_cases hq1 : (q.id == pid) = true
      · simp only [hq1, if_true]
        rfl
      · simp only [hq1, if_false]
        exact hinv q hq
    · intro p hp hpaid
      have hw : List.find? (fun q : Payment => q.id == pid) store = some w := hfw
      have hwmem : w ∈ store := List.mem_of_find?_eq_some hw
      have hwid := List.find?_some hw
      have hrow : updateRow pid payload now p = p := by
        unfold updateRow
        by_cases hq1 : (p.id == pid) = true
        · exfalso
          have hpw : p = w := by
            refine eq_of_mem_of_id_eq store hnodup p w hp hwmem ?_
            have h1 : p.id = pid := by simpa using hq1
            have h2 : w.id = pid := by simpa using hwid
            rw [h1, h2]
          rw [hpw] at hpaid
          rw [hpaid] at hwpend
          cases hwpend
        · simp [hq1]
      have := List.mem_map_of_mem (updateRow pid payload now) hp
      rwa [hrow] at this

/-- Witness for C9: a store holding one PAID row satisfies the invariant
hypotheses, and that row is still present after a delivery of the concrete
sample event for it. -/
theorem c9_state_invariant_witness :
    samplePaid ∈ (POST sampleVerify "t1" sampleRequest [samplePaid]).2 :=
  (c9_state_invariant sampleVerify "t1" sampleRequest [samplePaid]
    (by decide) (by decide)).2 samplePaid (by simp) rfl

/-- C10: under the modelled conditional atomic store write, two deliveries
for the same payment interleave as two atomic `updatePaymentToPaid`
steps, and in every such interleaving the PENDING to PAID transition
fires at most once: if the first step fires it, the second step cannot,
and the second step never changes the store the first step produced, so
no paid side effect can be triggered twice. -/
theorem c10_concurrent_transition_at_most_once (store : List Payment)
    (pid : Option String) (payload1 payload2 : PaymentResult)
    (now1 now2 : String) :
    (firesTransition store pid
      && firesTransition (runUpdate store pid payload1 now1) pid) = false ∧
    runUpdate (runUpdate store pid payload1 now1) pid payload2 now2
      = runUpdate store pid payload1 now1 := by
  cases pid with
  | none => exact ⟨rfl, rfl⟩
  | some pid =>
    cases hf : findPayment store pid with
    | none =>
      have hrun : runUpdate store (some pid) payload1 now1 = store := by
        simp [runUpdate, updatePaymentToPaid, hf]
      constructor
      · simp [firesTransition, hf]
      · rw [hrun]
        simp [runUpdate, updatePaymentToPaid, hf]
    | some p =>
      cases hp : p.isPaid with
      | true =>
        have hrun : runUpdate store (some pid) payload1 now1 = store := by
          simp [runUpdate, update_of_paid store pid payload1 now1 p hf hp]
        constructor
        · simp [firesTransition, hf, hp]
        · rw [hrun]
          simp [runUpdate, update_of_paid store pid payload2 now2 p hf hp]
      | false =>
        have hrun : runUpdate store (some pid) payload1 now1
            = store.map (updateRow pid payload1 now1) := by
          simp [runUpdate, update_of_pending store pid payload1 now1 p hf hp]
        have hf1 : findPayment (store.map (updateRow pid payload1 now1)) pid
            = some (markPaid payload1 now1 p) :=
          findPayment_map_update store pid payload1 now1 p hf
        constructor
        · rw [hrun]
          simp [firesTransition, hf, hp, hf1, markPaid]
        · rw [hrun]
          simp [runUpdate,
            update_of_paid (store.map (updateRow pid payload1 now1)) pid
              payload2 now2 (markPaid payload1 now1 p) hf1 rfl]

/-- C1: the handler records the major-unit amount through the JavaScript
expression (charge.amount / 100).toFixed(), whose default digit count is
zero: a charge of 12345 minor units is written into both pricePaid and
amount as the rounded integer string "123", not the exact two-decimal
"123.45" that the claim requires. -/
theorem c1_amount_recorded_without_decimals :
    toFixedZero 12345 = "123" ∧
    (chargePayload sampleCharge "t1").pricePaid = "123" ∧
    (chargePayload sampleCharge "t1").amount = "123" ∧
    toFixedZero 12345 ≠ "123.45" := by
  refine ⟨rfl, rfl, rfl, by decide⟩

end EShop
